import Mathlib

/-!
# Verification of the eunoia-ai session/state-synchronization layer

A shallow embedding, in Lean 4, of the client-side session, chat and
sequence-document logic of the eunoia-ai front end, together with proofs
about the behaviour of its operations.  Each definition is translated
from a specific TypeScript function of the repository; the theorems at
the end of the file settle the behavioural claims about those functions.
-/

namespace Eunoia

/-! ## Data model

Mirrors `SequenceStep` / `SequenceData` from
`app/components/workspace/sequence-types.ts`: a step has a stable string
`id`, a 1-based `step` number, a `day` offset, a `channel` string, an
optional `subject` (present only for Email steps), a `message` and a
human-readable `timing` label.  Optional TypeScript fields become
`Option`; JavaScript numeric fields used as integers become `Int`. -/

structure SequenceStep where
  id : String
  step : Nat
  day : Int
  channel : String
  subject : Option String
  message : String
  timing : String
deriving Repr, DecidableEq

structure SequenceData where
  id : Option String
  title : String
  target_role : String
  industry : String
  company : Option String
  steps : List SequenceStep
deriving Repr, DecidableEq

/-- JavaScript `String.prototype.trim()`: strips whitespace from both
ends of the string. -/
def jsTrim (s : String) : String :=
  ⟨((s.data.dropWhile Char.isWhitespace).reverse.dropWhile
      Char.isWhitespace).reverse⟩

/-- JavaScript `String.prototype.substring(0, n)`: the first `n`
characters of the string (the whole string when shorter). -/
def jsTake (s : String) (n : Nat) : String :=
  ⟨s.data.take n⟩

/-- Mirrors the `Session` interface of the agent context
(`{id, name, created_at, updated_at?}`). -/
structure Session where
  id : String
  name : String
  created_at : String
  updated_at : Option String
deriving Repr, DecidableEq

/-! ## Sequence editor operations (WorkspaceContainer / SequenceEditor)

Translated from the `SequenceEditor` component (`addStep`, `removeStep`,
`validateSequence`, `handleSaveSequence`) and the `WorkspaceContainer`
component (`sanitizeSequenceData`, the `sequence_update` handler). -/

/-- `addStep` of `SequenceEditor`:
```
const newStepNumber = sequenceData.steps.length + 1;
const lastStepDay = sequenceData.steps.length > 0
  ? sequenceData.steps[sequenceData.steps.length - 1].day : 0;
const newStep = { id: `step-${Date.now()}`, step: newStepNumber,
  day: lastStepDay + 3, channel: 'Email',
  message: 'Enter your message here...', timing: `Day ${lastStepDay + 3}` };
setSequenceData({ ...sequenceData, steps: [...sequenceData.steps, newStep] });
```
The fresh id produced by `Date.now()` is passed in as `newId`. -/
def addStep (newId : String) (d : SequenceData) : SequenceData :=
  let newStepNumber := d.steps.length + 1
  let lastStepDay : Int :=
    match d.steps.getLast? with
    | some lastStep => lastStep.day
    | none => 0
  let newDay := lastStepDay + 3
  let newStep : SequenceStep :=
    { id := newId
      step := newStepNumber
      day := newDay
      channel := "Email"
      subject := none
      message := "Enter your message here..."
      timing := "Day " ++ toString newDay }
  { d with steps := d.steps ++ [newStep] }

/-- `removeStep` of `SequenceEditor`:
```
const updatedSteps = sequenceData.steps
  .filter(step => step.id !== stepId)
  .map((step, idx) => ({ ...step, step: idx + 1 }));
```
-/
def removeStep (stepId : String) (d : SequenceData) : SequenceData :=
  { d with
    steps := (d.steps.filter (fun s => s.id ≠ stepId)).mapIdx
      (fun idx s => { s with step := idx + 1 }) }

/-- The dense-numbering invariant of the spec: the `step` values are
exactly `1..len(steps)` in list order. -/
def stepsNumbered (l : List SequenceStep) : Prop :=
  ∀ i : Fin l.length, (l.get i).step = (i : Nat) + 1

instance (l : List SequenceStep) : Decidable (stepsNumbered l) := by
  unfold stepsNumbered; infer_instance

/-- An editing session on the sequence document: each user action is
either an `addStep` click (carrying the fresh id minted at click time)
or a `removeStep` click on some step id. -/
inductive SeqOp where
  | add (newId : String)
  | remove (stepId : String)
deriving Repr, DecidableEq

def applySeqOp (d : SequenceData) : SeqOp → SequenceData
  | .add newId => addStep newId d
  | .remove stepId => removeStep stepId d

def applySeqOps (d : SequenceData) (ops : List SeqOp) : SequenceData :=
  ops.foldl applySeqOp d

/-- `removeStep` renumbers unconditionally: its `.map((step, idx) =>
({...step, step: idx + 1}))` stamps position-derived numbers on whatever
survives the filter, so the result is densely numbered from 1. -/
lemma stepsNumbered_removeStep (stepId : String) (d : SequenceData) :
    stepsNumbered (removeStep stepId d).steps := by
  intro i
  rcases i with ⟨i, hi⟩
  simp only [removeStep, List.get_eq_getElem] at hi ⊢
  rw [List.getElem_mapIdx]

/-- `addStep` preserves dense numbering: the old steps keep their
numbers and the appended step receives `len(steps) + 1`. -/
lemma stepsNumbered_addStep (newId : String) (d : SequenceData)
    (hd : stepsNumbered d.steps) :
    stepsNumbered (addStep newId d).steps := by
  intro i
  rcases i with ⟨i, hi⟩
  simp only [addStep, List.length_append, List.length_cons, List.length_nil,
    List.get_eq_getElem] at hi ⊢
  rcases Nat.lt_or_ge i d.steps.length with h | h
  · rw [List.getElem_append_left h]
    exact hd ⟨i, h⟩
  · have hlen : i = d.steps.length := by omega
    subst hlen
    rw [List.getElem_append_right (Nat.le_refl _)]
    simp

lemma stepsNumbered_applySeqOp (d : SequenceData) (op : SeqOp)
    (hd : stepsNumbered d.steps) : stepsNumbered (applySeqOp d op).steps := by
  cases op with
  | add newId => exact stepsNumbered_addStep newId d hd
  | remove stepId => exact stepsNumbered_removeStep stepId d

lemma stepsNumbered_applySeqOps (d : SequenceData) (ops : List SeqOp)
    (hd : stepsNumbered d.steps) : stepsNumbered (applySeqOps d ops).steps := by
  induction ops generalizing d with
  | nil => exact hd
  | cons op rest ih =>
      exact ih (applySeqOp d op) (stepsNumbered_applySeqOp d op hd)

/-- The default branch of `handleAddStep` in the older
`Workspace/sequenceTypes.ts` editor:
```
const nextStep = sequence.steps.length + 1;
const lastStep = sequence.steps[sequence.steps.length - 1];
const newDay = lastStep ? lastStep.day + 3 : 0;
const newStep = { id: `step_${Date.now()}`, step: nextStep, day: newDay,
  channel: 'Email', subject: 'Follow up',
  message: 'Enter your message here...', timing: `Day ${newDay}` };
```
-/
def handleAddStep (newId : String) (d : SequenceData) : SequenceData :=
  let nextStep := d.steps.length + 1
  let newDay : Int :=
    match d.steps.getLast? with
    | some lastStep => lastStep.day + 3
    | none => 0
  let newStep : SequenceStep :=
    { id := newId
      step := nextStep
      day := newDay
      channel := "Email"
      subject := some "Follow up"
      message := "Enter your message here..."
      timing := "Day " ++ toString newDay }
  { d with steps := d.steps ++ [newStep] }

/-! ## Save validation (`SequenceEditor.validateSequence` /
`handleSaveSequence`) -/

/-- The per-step body of `validateSequence`'s loop, returning the first
field-identifying error message, or `none` when the step is valid:
```
if (!step.message || step.message.trim() === '') return 'All steps must have a message';
if (!step.channel) return 'All steps must have a channel selected';
if (step.channel === 'Email' && (!step.subject || step.subject.trim() === ''))
  return 'Email steps must have a subject line';
```
(`!x` on a TypeScript string is the empty-string test; `!step.subject`
on the optional field also covers its absence.) -/
def validateStep (s : SequenceStep) : Option String :=
  if s.message = "" ∨ jsTrim s.message = "" then
    some "All steps must have a message"
  else if s.channel = "" then
    some "All steps must have a channel selected"
  else if s.channel = "Email" ∧
      (s.subject = none ∨ jsTrim (s.subject.getD "") = "") then
    some "Email steps must have a subject line"
  else
    none

/-- `validateSequence` of `SequenceEditor`: an empty sequence is
rejected outright; otherwise the steps are scanned in order and the
first failure's message is surfaced. -/
def validateSequence (d : SequenceData) : Option String :=
  if d.steps.length = 0 then
    some "Sequence must have at least one step"
  else
    d.steps.foldr (fun s acc => match validateStep s with
      | some msg => some msg
      | none => acc) none

/-- Outcome of one `handleSaveSequence` invocation. -/
inductive SaveOutcome where
  | blocked
  | validationError (msg : String)
  | transmitted
deriving Repr, DecidableEq

/-- `handleSaveSequence` of `SequenceEditor`:
```
if (!sessionId || isSaving) return;
if (!validateSequence()) { setSaveStatus('error'); return; }
... fetch('/api/sequences/save', ...)
```
The network request (`transmitted`) is reached only when validation
passed; a validation failure surfaces the message and sends nothing. -/
def handleSaveSequence (hasSessionId : Bool) (isSaving : Bool)
    (d : SequenceData) : SaveOutcome :=
  if !hasSessionId || isSaving then .blocked
  else
    match validateSequence d with
    | some msg => .validationError msg
    | none => .transmitted

/-! ## Inbound-document handling

Two implementations coexist in the repository:
`AppWrapper.validateSequenceStructure` (wholesale accept/reject of a
pushed document) and `WorkspaceContainer.sanitizeSequenceData`
(per-step filtering applied to both the load path and the push path). -/

/-- `validateSequenceStructure` of `app-wrapper.tsx`:
```
for (const step of sequenceData.steps) {
  if (typeof step !== 'object' || typeof step.message !== 'string' ||
      !step.id || !step.channel) return false;
}
```
For a typed step the `typeof` tests always hold (note: an *empty*
`message` string still passes `typeof step.message === 'string'`), so
what remains is the truthiness of `id` and `channel`. -/
def validateSequenceStructure (d : SequenceData) : Bool :=
  d.steps.all (fun s => s.id ≠ "" && s.channel ≠ "")

/-- The `sequence_update` handler of `app-wrapper.tsx`: a non-null
document carrying a steps array is applied wholesale iff it passes
`validateSequenceStructure`, otherwise the previous store value is
kept; a null payload clears the store. -/
def appWrapperSequenceUpdate (prev : Option SequenceData)
    (payload : Option SequenceData) : Option SequenceData :=
  match payload with
  | some d => if validateSequenceStructure d then some d else prev
  | none => none

/-- The step filter inside `sanitizeSequenceData`:
```
step && typeof step === 'object' &&
step.message && typeof step.message === 'string' &&
step.channel && typeof step.channel === 'string'
```
i.e. for typed steps: non-empty `message` and non-empty `channel`. -/
def stepTruthy (s : SequenceStep) : Bool :=
  s.message ≠ "" && s.channel ≠ ""

/-- `sanitizeSequenceData` of `WorkspaceContainer`: keeps only the
steps passing `stepTruthy` and back-fills a missing (empty) `id` with a
position-derived one. -/
def sanitizeSequenceData (d : SequenceData) : SequenceData :=
  let validSteps := d.steps.filter stepTruthy
  { d with
    steps := validSteps.mapIdx
      (fun index s =>
        { s with id := if s.id = "" then "step-" ++ toString index else s.id }) }

/-- The `sequence_update` handler of `WorkspaceContainer`: a non-null
document carrying a steps array is always applied after sanitization;
a null payload clears the store.  The previous store value (kept in
the handler's closure) never influences the result. -/
def workspaceSequenceUpdate (_prev : Option SequenceData)
    (payload : Option SequenceData) : Option SequenceData :=
  match payload with
  | some d => some (sanitizeSequenceData d)
  | none => none

/-! ## Session registry (AgentProvider)

Translated from the `AgentProvider` context: session-list bootstrap
reconciliation (`initializeSession`), deletion (`deleteSession`) and
the first-message rename helper (`generateSessionName`). -/

/-- The session-list reconciliation inside `initializeSession`:
```
if (response.ok && Array.isArray(serverSessionsData)) {
  if (storedSessions) {
    const localSessionIds = new Set(localSessionsData.map(s => s.id));
    finalSessions = serverSessionsData.filter(s => localSessionIds.has(s.id));
  } else { finalSessions = serverSessionsData; }
} else { finalSessions = localSessionsData; }
```
`storedSessions` (the raw `localStorage` value) being present is the
"local cache exists" case; a failed or non-array server response is
`none`. -/
def mergeSessionLists (storedSessions : Option (List Session))
    (serverResponse : Option (List Session)) : List Session :=
  let localSessionsData := storedSessions.getD []
  match serverResponse with
  | some serverSessionsData =>
      match storedSessions with
      | some localSessions =>
          serverSessionsData.filter
            (fun s => (localSessions.map Session.id).contains s.id)
      | none => serverSessionsData
  | none => localSessionsData

/-- The slice of provider state that `deleteSession` touches. -/
structure RegistryState where
  sessions : List Session
  sessionId : String
  currentSessionName : String
  isDeletingSession : Bool
deriving Repr, DecidableEq

/-- Result of the `fetch` issued by an operation. -/
inductive ServerOutcome where
  | ok
  | fail
deriving Repr, DecidableEq

/-- `switchSession` of the agent context: activates `sid`, and adopts
its display name when it is found in the list. -/
def switchSession (sid : String) (st : RegistryState) : RegistryState :=
  let st := { st with sessionId := sid }
  match st.sessions.find? (fun s => s.id = sid) with
  | some currentSession => { st with currentSessionName := currentSession.name }
  | none => st

/-- The registry effect of `createNewSession`: a fresh id and a
timestamp-derived default name, appended to the list and activated
(the server calls and the sequence-reset chain it also starts are
modelled separately by `attemptSequenceReset`). -/
def createNewSession (newId defaultName : String) (st : RegistryState) :
    RegistryState :=
  { st with
    sessionId := newId
    currentSessionName := defaultName
    sessions := st.sessions ++ [⟨newId, defaultName, "", none⟩] }

/-- `deleteSession` of the agent context (first version of the
provider, the one carrying `deleteSession`):
```
if (typeof window === 'undefined' || isDeletingSession) return;
setIsDeletingSession(true);
fetch(`/api/sessions/${sid}`, { method: 'DELETE' })
  .then(...)
  .then(() => {
    const updatedSessions = sessions.filter(s => s.id !== sid);
    setSessions(updatedSessions);
    if (sid === sessionId) {
      if (updatedSessions.length > 0) switchSession(updatedSessions[0].id);
      else createNewSession();
    }
  })
  .catch(error => {
    const updatedSessions = sessions.filter(s => s.id !== sid);
    setSessions(updatedSessions);
  })
  .finally(() => setIsDeletingSession(false));
```
`newId`/`defaultName` stand for the fresh identity `createNewSession`
would mint if no session remains.  The function models the state after
the whole operation settles (so `isDeletingSession` is back to
`false`); a call arriving while a delete is in flight is the
`isDeletingSession = true` case and leaves the state unchanged. -/
def deleteSession (sid : String) (outcome : ServerOutcome)
    (newId defaultName : String) (st : RegistryState) : RegistryState :=
  if st.isDeletingSession then st
  else
    let updatedSessions := st.sessions.filter (fun s => s.id ≠ sid)
    match outcome with
    | .ok =>
        let st := { st with sessions := updatedSessions }
        if sid = st.sessionId then
          match updatedSessions with
          | first :: _ => switchSession first.id st
          | [] => createNewSession newId defaultName st
        else st
    | .fail => { st with sessions := updatedSessions }

/-- Strict lexicographic order on strings by character code, used to
compare ISO-8601 `created_at` timestamps (for which lexicographic and
chronological order coincide). -/
def strLtB : List Char → List Char → Bool
  | [], [] => false
  | [], _ :: _ => true
  | _ :: _, [] => false
  | a :: as, b :: bs =>
      if a.toNat < b.toNat then true
      else if b.toNat < a.toNat then false
      else strLtB as bs

/-- The spec's selection rule for `delete(id)` — "activates the
most-recently-created remaining session".  Modelled from the spec's
words (the repository nowhere computes this), for comparison with what
`deleteSession` actually activates: the remaining session whose
`created_at` is maximal. -/
def specMostRecentlyCreated (l : List Session) : Option Session :=
  l.foldl
    (fun acc s =>
      match acc with
      | none => some s
      | some best =>
          if strLtB best.created_at.data s.created_at.data then some s
          else some best)
    none

/-- `generateSessionName` of the agent context:
```
if (!sessionId || !message.trim() ||
    currentSessionName !== `Session ${new Date().toLocaleString()}`) return;
const truncatedMessage = message.substring(0, 30).trim();
const newName = truncatedMessage + (truncatedMessage.length >= 30 ? '...' : '');
if (newName.trim()) renameSession(sessionId, newName);
```
`nowString` is `new Date().toLocaleString()` evaluated *at the moment
the message is submitted*.  Returns the name passed to `renameSession`,
or `none` when no rename is issued. -/
def generateSessionName (nowString : String) (sessionId : String)
    (currentSessionName : String) (message : String) : Option String :=
  if sessionId = "" ∨ jsTrim message = "" ∨
      currentSessionName ≠ "Session " ++ nowString then
    none
  else
    let truncatedMessage := jsTrim (jsTake message 30)
    let newName :=
      truncatedMessage ++ (if truncatedMessage.length ≥ 30 then "..." else "")
    if jsTrim newName ≠ "" then some newName else none

/-! ## Sequence-reset retry chain (`createNewSession` in the agent
context) -/

def maxResetAttempts : Nat := 3

/-- One run of the `attemptSequenceReset` retry chain:
```
let resetAttempts = 0;
const attemptSequenceReset = () => {
  resetAttempts++;
  fetch('/api/sequences/reset', ...)
    .then(...)
    .catch((error) => {
      if (resetAttempts < maxResetAttempts) setTimeout(attemptSequenceReset, 500);
      else { /* proceed without reset */ }
    });
};
attemptSequenceReset();
```
`outcome n` tells whether the `n`-th call of the whole
reset-then-create-chat chain succeeds.  The result is the total number
of reset calls issued and whether a reset ultimately succeeded; in
either case the provider proceeds with session setup (exhaustion is not
fatal). -/
def attemptSequenceReset (outcome : Nat → Bool) (resetAttempts : Nat) :
    Nat × Bool :=
  let attempts := resetAttempts + 1
  if outcome attempts then (attempts, true)
  else if attempts < maxResetAttempts then
    attemptSequenceReset outcome attempts
  else (attempts, false)
termination_by maxResetAttempts - resetAttempts
decreasing_by omega

/-- The reset chain as started by `createNewSession` (counter at 0). -/
def runSequenceReset (outcome : Nat → Bool) : Nat × Bool :=
  attemptSequenceReset outcome 0

/-! ## Connection lifecycle (`app-wrapper.tsx` / `page.tsx` socket
handlers)

Both files register identical `connect` / `connect_error` handlers over
the shared refs `reconnectAttempts` (initially 0),
`connectionStatus` and `connectionError`, with
`maxReconnectAttempts = 5`. -/

def maxReconnectAttempts : Nat := 5

structure ConnState where
  reconnectAttempts : Nat
  connectionStatus : String
  connectionError : Option String
deriving Repr, DecidableEq

/-- State before any lifecycle event fires. -/
def initConnState : ConnState :=
  { reconnectAttempts := 0
    connectionStatus := "disconnected"
    connectionError := none }

/-- The terminal error surfaced once the attempt ceiling is reached. -/
def terminalConnError : String :=
  "Unable to connect to server. Please refresh the page."

inductive ConnEvent where
  | connect
  | disconnect
  | connectError
deriving Repr, DecidableEq

/-- The socket lifecycle handlers:
```
socket.on('connect', () => {
  setConnectionStatus('connected'); setConnectionError(null);
  reconnectAttempts.current = 0; ... });
socket.on('disconnect', () => setConnectionStatus('disconnected'));
socket.on('connect_error', () => {
  reconnectAttempts.current += 1; setConnectionStatus('error');
  if (reconnectAttempts.current >= maxReconnectAttempts)
    setConnectionError('Unable to connect to server. Please refresh the page.');
  else
    setConnectionError(`Connection issue. Attempting to reconnect
      (${reconnectAttempts.current}/${maxReconnectAttempts})...`); });
```
-/
def connStep (st : ConnState) : ConnEvent → ConnState
  | .connect =>
      { st with
        connectionStatus := "connected"
        connectionError := none
        reconnectAttempts := 0 }
  | .disconnect => { st with connectionStatus := "disconnected" }
  | .connectError =>
      let attempts := st.reconnectAttempts + 1
      { st with
        reconnectAttempts := attempts
        connectionStatus := "error"
        connectionError :=
          if attempts ≥ maxReconnectAttempts then some terminalConnError
          else
            some ("Connection issue. Attempting to reconnect (" ++
              toString attempts ++ "/" ++ toString maxReconnectAttempts ++ ")...") }

/-- A run of the handlers over an arrival-ordered event trace. -/
def connRun (st : ConnState) (evs : List ConnEvent) : ConnState :=
  evs.foldl connStep st

/-- The number of `connect_error` events since the last successful
`connect` (or since the start, when no `connect` occurred). -/
def failuresSinceConnect (evs : List ConnEvent) : Nat :=
  evs.foldl
    (fun n e =>
      match e with
      | .connect => 0
      | .disconnect => n
      | .connectError => n + 1)
    0

/-! ## Chat-message dispatch

Two send handlers coexist: `handleSubmit` of the `EunoiaAI` page
component and `handleSendMessage` of the `ChatContainer` component. -/

/-- Which transmissions one submission performed. -/
structure Dispatch where
  socketSent : Bool
  httpSent : Bool
  appendedUser : Bool
deriving Repr, DecidableEq

/-- `handleSubmit` of the `EunoiaAI` page component:
```
if (!userInput.trim() || isGenerating || !sessionId) return;
setMessages(prev => [...prev, { type: 'user', text: userInput }]);
if (socketRef.current && socketRef.current.connected) {
  socketRef.current.emit('chat_message', {...});
} else {
  await fetch('/api/chat', {...});
}
```
-/
def handleSubmit (userInput : String) (isGenerating : Bool)
    (sessionId : String) (socketExists socketConnected : Bool) : Dispatch :=
  if jsTrim userInput = "" ∨ isGenerating ∨ sessionId = "" then
    ⟨false, false, false⟩
  else if socketExists && socketConnected then
    ⟨true, false, true⟩
  else
    ⟨false, true, true⟩

/-- `handleSendMessage` of the `ChatContainer` component:
```
if (connectionError) { ...; return; }
setMessages(prev => [...prev, userMessage]);
const currentSocket = socketRef.current;
if (!currentSocket || !currentSocket.connected) {
  const response = await fetch('/api/chat', {...});  // fallback only
  ...
  return;
}
currentSocket.emit('chat_message', {...});
// Also send via HTTP for reliability
const response = await fetch('/api/chat', {...});
```
-/
def handleSendMessage (connectionError : Bool)
    (socketExists socketConnected : Bool) : Dispatch :=
  if connectionError then
    ⟨false, false, false⟩
  else if !socketExists || !socketConnected then
    ⟨false, true, true⟩
  else
    ⟨true, true, true⟩

/-! ## Helper lemmas -/

/-- A projection unaffected by an index-dependent rewrite commutes with
`mapIdx`. -/
lemma map_mapIdx_of_proj {α β : Type} (l : List α) (f : Nat → α → α)
    (g : α → β) (hg : ∀ i a, g (f i a) = g a) :
    (l.mapIdx f).map g = l.map g := by
  induction l generalizing f with
  | nil => rfl
  | cons a t ih =>
      simp only [List.mapIdx_cons, List.map_cons, hg]
      rw [ih (fun i => f (i + 1)) (fun i a => hg (i + 1) a)]

/-- A predicate unaffected by an index-dependent rewrite commutes with
`all` over `mapIdx`. -/
lemma all_mapIdx_of_pred {α : Type} (l : List α) (f : Nat → α → α)
    (p : α → Bool) (hp : ∀ i a, p (f i a) = p a) :
    (l.mapIdx f).all p = l.all p := by
  induction l generalizing f with
  | nil => rfl
  | cons a t ih =>
      simp only [List.mapIdx_cons, List.all_cons, hp]
      rw [ih (fun i => f (i + 1)) (fun i a => hp (i + 1) a)]

/-! ## Claim theorems -/

/-- C3: the claim — an inbound sequence document is applied only when
every step carries a non-empty message and channel, and is otherwise
rejected wholesale — is false for `WorkspaceContainer`: its
`sanitizeSequenceData` keeps the valid steps of a partially invalid
document.  Concretely, pushing a two-step document whose second step
has an empty message yields a one-step store value that is neither the
previous document (wholesale rejection) nor the pushed document
(wholesale application). -/
theorem claim_C3_counterexample :
    workspaceSequenceUpdate
        (some ⟨none, "prev", "r", "i", none, []⟩)
        (some ⟨none, "t", "r", "i", none,
          [⟨"s1", 1, 0, "Email", some "Hi", "hello", "Day 0"⟩,
           ⟨"s2", 2, 3, "LinkedIn", none, "", "Day 3"⟩]⟩) ≠
      some ⟨none, "prev", "r", "i", none, []⟩
    ∧ workspaceSequenceUpdate
        (some ⟨none, "prev", "r", "i", none, []⟩)
        (some ⟨none, "t", "r", "i", none,
          [⟨"s1", 1, 0, "Email", some "Hi", "hello", "Day 0"⟩,
           ⟨"s2", 2, 3, "LinkedIn", none, "", "Day 3"⟩]⟩) ≠
      some ⟨none, "t", "r", "i", none,
          [⟨"s1", 1, 0, "Email", some "Hi", "hello", "Day 0"⟩,
           ⟨"s2", 2, 3, "LinkedIn", none, "", "Day 3"⟩]⟩
    ∧ (workspaceSequenceUpdate
        (some ⟨none, "prev", "r", "i", none, []⟩)
        (some ⟨none, "t", "r", "i", none,
          [⟨"s1", 1, 0, "Email", some "Hi", "hello", "Day 0"⟩,
           ⟨"s2", 2, 3, "LinkedIn", none, "", "Day 3"⟩]⟩)).map
        (fun d => d.steps.map SequenceStep.message) = some ["hello"] := by
  decide

/-- C3 (amended): `WorkspaceContainer` applies every non-null inbound
document (load or push) after per-step sanitization — the steps kept
are exactly those of the original with a non-empty message and a
non-empty channel, in order (partial application), and every surviving
step satisfies that validity test — while the `app-wrapper` push
handler applies a document wholesale iff every step has a truthy `id`
and `channel` (an empty `message` string passes its `typeof` test),
keeping the previous store value otherwise; a null payload clears the
store in both. -/
theorem claim_C3 (prev : Option SequenceData) (d : SequenceData) :
    workspaceSequenceUpdate prev (some d) = some (sanitizeSequenceData d)
    ∧ (sanitizeSequenceData d).steps.all stepTruthy = true
    ∧ (sanitizeSequenceData d).steps.map SequenceStep.message =
        (d.steps.filter stepTruthy).map SequenceStep.message
    ∧ (sanitizeSequenceData d).steps.map SequenceStep.channel =
        (d.steps.filter stepTruthy).map SequenceStep.channel
    ∧ workspaceSequenceUpdate prev none = none
    ∧ appWrapperSequenceUpdate prev (some d) =
        (if validateSequenceStructure d then some d else prev)
    ∧ appWrapperSequenceUpdate prev none = none := by
  refine ⟨rfl, ?_, ?_, ?_, rfl, rfl, rfl⟩
  · unfold sanitizeSequenceData
    rw [all_mapIdx_of_pred (d.steps.filter stepTruthy)
      (fun index s =>
        { s with id := if s.id = "" then "step-" ++ toString index else s.id })
      stepTruthy (fun i a => rfl)]
    simp [List.all_eq_true]
  · unfold sanitizeSequenceData
    exact map_mapIdx_of_proj (d.steps.filter stepTruthy)
      (fun index s =>
        { s with id := if s.id = "" then "step-" ++ toString index else s.id })
      SequenceStep.message (fun i a => rfl)
  · unfold sanitizeSequenceData
    exact map_mapIdx_of_proj (d.steps.filter stepTruthy)
      (fun index s =>
        { s with id := if s.id = "" then "step-" ++ toString index else s.id })
      SequenceStep.channel (fun i a => rfl)

/-- C4: starting from any sequence document whose step numbers are the
dense list `1..len(steps)` (in particular the empty document and any
document the editor itself produced), applying any sequence of
`addStep`/`removeStep` operations leaves `steps[i].step = i + 1` for
every valid index `i`. -/
theorem claim_C4 (d : SequenceData) (ops : List SeqOp)
    (hd : stepsNumbered d.steps) :
    stepsNumbered (applySeqOps d ops).steps :=
  stepsNumbered_applySeqOps d ops hd

/-- C4 witness: a concrete editing run — two inserts, a removal in the
middle, another insert — on an initially empty document ends densely
numbered. -/
theorem claim_C4_witness :
    stepsNumbered (applySeqOps ⟨none, "t", "r", "i", none, []⟩
      [.add "id-a", .add "id-b", .remove "id-a", .add "id-c"]).steps :=
  claim_C4 ⟨none, "t", "r", "i", none, []⟩
    [.add "id-a", .add "id-b", .remove "id-a", .add "id-c"]
    (fun i => absurd i.isLt (by simp))

/-- C9: the claim that `addStep()` assigns `day = 0` to the first step
of an empty document is false for the `SequenceEditor` in use: its
`lastStepDay` defaults to 0 and the new step's day is `lastStepDay +
3`, so the first step receives day 3. -/
theorem claim_C9_counterexample :
    (addStep "step-1" ⟨none, "t", "r", "i", none, []⟩).steps.map
      SequenceStep.day = [3]
    ∧ ¬ ((addStep "step-1" ⟨none, "t", "r", "i", none, []⟩).steps.map
      SequenceStep.day = [0]) := by
  decide

/-- C9 (amended): `addStep()` appends exactly one step, numbered
`len(steps) + 1`, with channel Email and the placeholder message; its
day is the previous last step's day plus 3 when a step exists, and 3
(not 0) when the list was empty.  The older `handleAddStep` default
branch is the variant that assigns day 0 to the first step of an empty
list. -/
theorem claim_C9 (newId : String) (d : SequenceData)
    (lastStep : SequenceStep) :
    (addStep newId d).steps.length = d.steps.length + 1
    ∧ (addStep newId d).steps.take d.steps.length = d.steps
    ∧ ((addStep newId d).steps.getLast?).map SequenceStep.step =
        some (d.steps.length + 1)
    ∧ (d.steps.getLast? = some lastStep →
        ((addStep newId d).steps.getLast?).map SequenceStep.day =
          some (lastStep.day + 3))
    ∧ (d.steps = [] →
        ((addStep newId d).steps.getLast?).map SequenceStep.day = some 3)
    ∧ ((addStep newId d).steps.getLast?).map SequenceStep.channel =
        some "Email"
    ∧ ((addStep newId d).steps.getLast?).map SequenceStep.message =
        some "Enter your message here..."
    ∧ ((addStep newId d).steps.getLast?).map SequenceStep.id = some newId
    ∧ (d.steps = [] →
        ((handleAddStep newId d).steps.getLast?).map SequenceStep.day =
          some 0) := by
  refine ⟨?_, ?_, ?_, ?_, ?_, ?_, ?_, ?_, ?_⟩
  · simp [addStep]
  · simp [addStep]
  · simp [addStep]
  · intro hlast
    simp [addStep, hlast]
  · intro hnil
    simp [addStep, hnil]
  · simp [addStep]
  · simp [addStep]
  · simp [addStep]
  · intro hnil
    simp [handleAddStep, hnil]

/-- C9 witness: on a one-step document whose step sits at day 4, the
appended step lands at day 7 with number 2, channel Email and the
placeholder message; on an empty document the legacy `handleAddStep`
assigns day 0. -/
theorem claim_C9_witness :
    ((addStep "id-x" ⟨none, "t", "r", "i", none,
        [⟨"s1", 1, 4, "Email", some "S", "m", "Day 4"⟩]⟩).steps.getLast?).map
      SequenceStep.day = some 7
    ∧ ((handleAddStep "id-y" ⟨none, "t", "r", "i", none, []⟩).steps.getLast?).map
      SequenceStep.day = some 0 :=
  ⟨by
    have h := (claim_C9 "id-x" ⟨none, "t", "r", "i", none,
        [⟨"s1", 1, 4, "Email", some "S", "m", "Day 4"⟩]⟩
        ⟨"s1", 1, 4, "Email", some "S", "m", "Day 4"⟩).2.2.2.1 rfl
    simpa using h,
   by
    exact (claim_C9 "id-y" ⟨none, "t", "r", "i", none, []⟩
      ⟨"s1", 1, 4, "Email", some "S", "m", "Day 4"⟩).2.2.2.2.2.2.2.2 rfl⟩

/-- C7: `save()` validates before any transmission — a validation
failure surfaces its field-identifying message and the save never
reaches the network request, while a document passing validation is
transmitted.  In particular the one-step document
`{channel: Email, subject: "", message: "hi"}` fails with the
subject-identifying error and is not transmitted, and the same document
with subject `"Hello"` is transmitted. -/
theorem claim_C7 (d : SequenceData) (msg : String) :
    (validateSequence d = some msg →
      handleSaveSequence true false d = .validationError msg)
    ∧ (validateSequence d = none →
      handleSaveSequence true false d = .transmitted)
    ∧ handleSaveSequence true false
        ⟨none, "t", "r", "i", none,
          [⟨"s1", 1, 0, "Email", some "", "hi", "Day 0"⟩]⟩ =
        .validationError "Email steps must have a subject line"
    ∧ handleSaveSequence true false
        ⟨none, "t", "r", "i", none,
          [⟨"s1", 1, 0, "Email", some "Hello", "hi", "Day 0"⟩]⟩ =
        .transmitted := by
  refine ⟨?_, ?_, by decide, by decide⟩
  · intro h
    simp [handleSaveSequence, h]
  · intro h
    simp [handleSaveSequence, h]

/-- C7 witness: the Email-with-empty-subject scenario concretely takes
the validation-error path through the general statement. -/
theorem claim_C7_witness :
    handleSaveSequence true false
        ⟨none, "t", "r", "i", none,
          [⟨"s1", 1, 0, "Email", some "", "hi", "Day 0"⟩]⟩ =
      .validationError "Email steps must have a subject line" :=
  (claim_C7
      ⟨none, "t", "r", "i", none,
        [⟨"s1", 1, 0, "Email", some "", "hi", "Day 0"⟩]⟩
      "Email steps must have a subject line").1 (by decide)

/-- C2: bootstrap session-list reconciliation.  With a local cache
present, a session is in the merged list iff it is in the server list
and its id is locally cached (the intersection by id); with no local
cache the server list is authoritative; consequently a session whose id
was removed from the local cache — a locally deleted session — never
reappears in the merged list even when the server still returns it,
and `deleteSession` itself removes the id from the list regardless of
the server outcome. -/
theorem claim_C2 (localSessions server : List Session) (x : Session)
    (st : RegistryState) (sid newId defaultName : String) :
    (∀ s : Session, s ∈ mergeSessionLists (some localSessions) (some server) ↔
        s ∈ server ∧ s.id ∈ localSessions.map Session.id)
    ∧ mergeSessionLists none (some server) = server
    ∧ (x.id ∉ localSessions.map Session.id →
        x ∉ mergeSessionLists (some localSessions) (some server))
    ∧ (st.isDeletingSession = false →
        (deleteSession sid .fail newId defaultName st).sessions =
          st.sessions.filter (fun s => s.id ≠ sid)) := by
  refine ⟨?_, rfl, ?_, ?_⟩
  · intro s
    simp [mergeSessionLists, List.mem_filter, List.elem_iff]
  · intro hx hmem
    simp [mergeSessionLists, List.mem_filter, List.elem_iff] at hmem
    rcases hmem.2 with ⟨y, hy, hyx⟩
    exact hx (List.mem_map.mpr ⟨y, hy, hyx⟩)
  · intro hflight
    simp [deleteSession, hflight]

/-- C2 witness: with local cache `[a]` and server list `[a, x]` (the
server still holding the locally deleted `x`), the merged list excludes
`x`. -/
theorem claim_C2_witness :
    (⟨"x", "X", "2024-01-02", none⟩ : Session) ∉
      mergeSessionLists
        (some [⟨"a", "A", "2024-01-01", none⟩])
        (some [⟨"a", "A", "2024-01-01", none⟩,
               ⟨"x", "X", "2024-01-02", none⟩]) :=
  (claim_C2 [⟨"a", "A", "2024-01-01", none⟩]
      [⟨"a", "A", "2024-01-01", none⟩, ⟨"x", "X", "2024-01-02", none⟩]
      ⟨"x", "X", "2024-01-02", none⟩
      ⟨[], "", "", false⟩ "" "" "").2.2.1 (by decide)

/-- C5: the claim that deleting the active session activates the
most-recently-created remaining session is false.  With sessions `a`,
`b`, `c` created in that order (`c` most recent) and `a` active, a
successful `deleteSession "a"` activates `b` — the *first* remaining
session in list order — although the most-recently-created remaining
session is `c`; moreover, when the server call fails the deleted
session is removed but no reactivation happens at all, leaving the
deleted id active. -/
theorem claim_C5_counterexample :
    (deleteSession "a" .ok "fresh" "Session fresh"
        ⟨[⟨"a", "A", "2024-01-01", none⟩, ⟨"b", "B", "2024-01-02", none⟩,
          ⟨"c", "C", "2024-01-03", none⟩], "a", "A", false⟩).sessionId = "b"
    ∧ (specMostRecentlyCreated
        (deleteSession "a" .ok "fresh" "Session fresh"
          ⟨[⟨"a", "A", "2024-01-01", none⟩, ⟨"b", "B", "2024-01-02", none⟩,
            ⟨"c", "C", "2024-01-03", none⟩], "a", "A", false⟩).sessions).map
        Session.id = some "c"
    ∧ ¬ ((("b" : String)) = "c")
    ∧ (deleteSession "a" .fail "fresh" "Session fresh"
        ⟨[⟨"a", "A", "2024-01-01", none⟩, ⟨"b", "B", "2024-01-02", none⟩,
          ⟨"c", "C", "2024-01-03", none⟩], "a", "A", false⟩).sessionId = "a" := by
  decide

/-- C5 (amended): `delete(id)` removes the session from the local list
regardless of the server outcome (as long as the freshly minted
replacement id differs from the deleted one); a delete already in
flight suppresses a second invocation entirely; on server *success*,
if the deleted session was active, the **first remaining session in
list order** becomes active (or a brand-new session is created and
activated when none remain); on server *failure* the active session is
left untouched — no reactivation occurs. -/
theorem claim_C5 (st : RegistryState) (sid newId defaultName : String)
    (outcome : ServerOutcome) (hflight : st.isDeletingSession = false)
    (hnew : newId ≠ sid) :
    (sid ∉ (deleteSession sid outcome newId defaultName st).sessions.map
        Session.id)
    ∧ (outcome = .fail →
        (deleteSession sid outcome newId defaultName st).sessions =
          st.sessions.filter (fun s => s.id ≠ sid)
        ∧ (deleteSession sid outcome newId defaultName st).sessionId =
          st.sessionId)
    ∧ (outcome = .ok → sid ≠ st.sessionId →
        (deleteSession sid outcome newId defaultName st).sessions =
          st.sessions.filter (fun s => s.id ≠ sid)
        ∧ (deleteSession sid outcome newId defaultName st).sessionId =
          st.sessionId)
    ∧ (outcome = .ok → sid = st.sessionId →
        (∀ first rest,
          st.sessions.filter (fun s => s.id ≠ sid) = first :: rest →
            (deleteSession sid outcome newId defaultName st).sessionId =
              first.id
            ∧ (deleteSession sid outcome newId defaultName st).sessions =
              first :: rest)
        ∧ (st.sessions.filter (fun s => s.id ≠ sid) = [] →
            (deleteSession sid outcome newId defaultName st).sessionId = newId
            ∧ (deleteSession sid outcome newId defaultName st).sessions =
              [⟨newId, defaultName, "", none⟩]))
    ∧ deleteSession sid outcome newId defaultName
        { st with isDeletingSession := true } =
        { st with isDeletingSession := true } := by
  have hswitch : ∀ (fid : String) (st' : RegistryState),
      (switchSession fid st').sessionId = fid ∧
      (switchSession fid st').sessions = st'.sessions := by
    intro fid st'
    unfold switchSession
    rcases h : st'.sessions.find? (fun s => s.id = fid) with _ | found <;>
      simp [h]
  refine ⟨?_, ?_, ?_, ?_, by simp [deleteSession]⟩
  · intro hmem
    rcases List.mem_map.mp hmem with ⟨x, hx, hxid⟩
    have hfilter : ∀ y ∈ st.sessions.filter (fun s => s.id ≠ sid),
        y.id ≠ sid := by
      intro y hymem
      simpa using (List.mem_filter.mp hymem).2
    cases outcome with
    | fail =>
        simp only [deleteSession, hflight] at hx
        simp only [Bool.false_eq_true, if_false] at hx
        exact hfilter x hx hxid
    | ok =>
        simp only [deleteSession, hflight] at hx
        simp only [Bool.false_eq_true, if_false] at hx
        by_cases hact : sid = st.sessionId
        · simp only [if_pos hact] at hx
          rcases hlist : st.sessions.filter (fun s => s.id ≠ sid) with
            _ | ⟨first, rest⟩
          · rw [hlist] at hx
            simp only [createNewSession, List.nil_append,
              List.mem_singleton] at hx
            rw [hx] at hxid
            exact hnew hxid
          · rw [hlist] at hx
            rw [(hswitch first.id _).2] at hx
            rw [← hlist] at hx
            exact hfilter x hx hxid
        · simp only [if_neg hact] at hx
          exact hfilter x hx hxid
  · rintro rfl
    simp [deleteSession, hflight]
  · rintro rfl hact
    simp [deleteSession, hflight, hact]
  · rintro rfl rfl
    constructor
    · intro first rest hlist
      simp only [deleteSession, hflight, Bool.false_eq_true, if_false,
        if_pos rfl, hlist]
      exact ⟨(hswitch first.id _).1, (hswitch first.id _).2⟩
    · intro hlist
      have hlist2 : st.sessions.filter
          (fun s => !decide (s.id = st.sessionId)) = [] := by
        simpa using hlist
      simp [deleteSession, hflight, hlist2, createNewSession]

/-- C5 witness: deleting the active session `a` of a two-session list
(server success) removes it and activates the first remaining session
`b`. -/
theorem claim_C5_witness :
    "a" ∉ (deleteSession "a" .ok "fresh" "Session fresh"
        ⟨[⟨"a", "A", "2024-01-01", none⟩, ⟨"b", "B", "2024-01-02", none⟩],
         "a", "A", false⟩).sessions.map Session.id
    ∧ (deleteSession "a" .ok "fresh" "Session fresh"
        ⟨[⟨"a", "A", "2024-01-01", none⟩, ⟨"b", "B", "2024-01-02", none⟩],
         "a", "A", false⟩).sessionId = "b" :=
  ⟨(claim_C5
      ⟨[⟨"a", "A", "2024-01-01", none⟩, ⟨"b", "B", "2024-01-02", none⟩],
       "a", "A", false⟩ "a" "fresh" "Session fresh" .ok rfl (by decide)).1,
   (((claim_C5
      ⟨[⟨"a", "A", "2024-01-01", none⟩, ⟨"b", "B", "2024-01-02", none⟩],
       "a", "A", false⟩ "a" "fresh" "Session fresh" .ok rfl
        (by decide)).2.2.2.1 rfl rfl).1
      ⟨"b", "B", "2024-01-02", none⟩ [] (by decide)).1⟩

/-- C6: the failing input for the first-message rename.  A fresh
session was created with the default name
`Session 1/1/2025, 10:00:00 AM`; its first user message "Hello team"
is submitted when `new Date().toLocaleString()` yields
`1/1/2025, 10:00:05 AM`.  The guard
`currentSessionName !== ``Session ${new Date().toLocaleString()}```
compares the stored name against a string built from the *submit-time*
clock, so no rename is issued at all (first conjunct) — the rename
fires only in the coincidental case where the formatted clock has not
changed since creation (second conjunct).  A further wart: a 30-character
message is not truncated, yet receives the `...` suffix (third
conjunct). -/
theorem claim_C6 :
    generateSessionName "1/1/2025, 10:00:05 AM" "sid-1"
      "Session 1/1/2025, 10:00:00 AM" "Hello team" = none
    ∧ generateSessionName "1/1/2025, 10:00:00 AM" "sid-1"
      "Session 1/1/2025, 10:00:00 AM" "Hello team" = some "Hello team"
    ∧ generateSessionName "1/1/2025, 10:00:00 AM" "sid-1"
      "Session 1/1/2025, 10:00:00 AM" "abcdefghijklmnopqrstuvwxyz1234" =
      some "abcdefghijklmnopqrstuvwxyz1234..." := by
  decide

/-- C8: the sequence-reset retry chain issues at most three calls to
the reset endpoint, and when the first three attempts all fail it
stops at exactly three (no fourth call) with the run completing in the
no-sequence state (`false`) rather than aborting session setup. -/
theorem claim_C8 (outcome : Nat → Bool) :
    (runSequenceReset outcome).1 ≤ maxResetAttempts
    ∧ (outcome 1 = false → outcome 2 = false → outcome 3 = false →
        runSequenceReset outcome = (3, false)) := by
  constructor
  · rcases h1 : outcome 1 <;> rcases h2 : outcome 2 <;> rcases h3 : outcome 3 <;>
      simp [runSequenceReset, attemptSequenceReset, h1, h2, h3,
        maxResetAttempts]
  · intro h1 h2 h3
    simp [runSequenceReset, attemptSequenceReset, h1, h2, h3,
      maxResetAttempts]

/-- C8 witness: with an always-failing reset endpoint, the chain stops
after exactly three calls and proceeds without a sequence. -/
theorem claim_C8_witness :
    runSequenceReset (fun _ => false) = (3, false) :=
  (claim_C8 (fun _ => false)).2 rfl rfl rfl

/-- C1: the claim that a message is never dispatched over both paths
is false for the `ChatContainer` send handler: with the socket present
and connected (and no connection error), `handleSendMessage` emits the
message on the socket *and* posts the same payload over HTTP ("Also
send via HTTP for reliability"). -/
theorem claim_C1_counterexample :
    (handleSendMessage false true true).socketSent = true
    ∧ (handleSendMessage false true true).httpSent = true := by
  decide

/-- C1 (amended): the page-component `handleSubmit` does use exactly
one delivery path per dispatched message — the realtime channel iff
the socket is present and connected, the HTTP fallback otherwise, and
never both; the `ChatContainer` `handleSendMessage`, however, uses
only the fallback when the socket is unavailable but uses *both* the
realtime channel and the HTTP request when connected. -/
theorem claim_C1 (userInput : String) (isGenerating : Bool)
    (sessionId : String) (socketExists socketConnected : Bool) :
    ((handleSubmit userInput isGenerating sessionId socketExists
        socketConnected).socketSent &&
      (handleSubmit userInput isGenerating sessionId socketExists
        socketConnected).httpSent) = false
    ∧ ((handleSubmit userInput isGenerating sessionId socketExists
          socketConnected).appendedUser = true →
        (handleSubmit userInput isGenerating sessionId socketExists
            socketConnected).socketSent = (socketExists && socketConnected)
        ∧ (handleSubmit userInput isGenerating sessionId socketExists
            socketConnected).httpSent = !(socketExists && socketConnected))
    ∧ ((!socketExists || !socketConnected) = true →
        handleSendMessage false socketExists socketConnected =
          ⟨false, true, true⟩)
    ∧ ((socketExists && socketConnected) = true →
        handleSendMessage false socketExists socketConnected =
          ⟨true, true, true⟩)
    ∧ handleSendMessage true socketExists socketConnected =
        ⟨false, false, false⟩ := by
  unfold handleSubmit handleSendMessage
  rcases socketExists <;> rcases socketConnected <;>
    split <;> simp_all

/-- C1 witness: a concrete dispatch through the page component —
non-blank input, idle, live connected socket — goes out on the socket
only. -/
theorem claim_C1_witness :
    (handleSubmit "hi" false "sid-1" true true).socketSent = true
    ∧ (handleSubmit "hi" false "sid-1" true true).httpSent = false :=
  ⟨((claim_C1 "hi" false "sid-1" true true).2.1 rfl).1,
   by
    have h := ((claim_C1 "hi" false "sid-1" true true).2.1 rfl).2
    simpa using h⟩

/-- The reachability invariant behind the attempt ceiling: whenever
the handlers have surfaced the terminal error, the attempt counter has
already reached the ceiling. -/
def connTerminalInv (st : ConnState) : Prop :=
  st.connectionError = some terminalConnError →
    st.reconnectAttempts ≥ maxReconnectAttempts

lemma connStep_terminalInv (st : ConnState) (e : ConnEvent)
    (hst : connTerminalInv st) : connTerminalInv (connStep st e) := by
  cases e with
  | connect => intro h; simp [connStep] at h
  | disconnect => exact hst
  | connectError =>
      intro h
      simp only [connStep] at h ⊢
      by_cases hc : st.reconnectAttempts + 1 ≥ maxReconnectAttempts
      · exact hc
      · exfalso
        rw [if_neg hc] at h
        have hb : st.reconnectAttempts + 1 ≤ 4 := by
          simp [maxReconnectAttempts] at hc
          omega
        have h4 : st.reconnectAttempts ≤ 3 := by omega
        interval_cases st.reconnectAttempts <;>
          exact absurd h (by decide)

lemma connRun_terminalInv (st : ConnState) (evs : List ConnEvent)
    (hst : connTerminalInv st) : connTerminalInv (connRun st evs) := by
  induction evs generalizing st with
  | nil => exact hst
  | cons e rest ih => exact ih (connStep st e) (connStep_terminalInv st e hst)

lemma connRun_attempts (evs : List ConnEvent) :
    ∀ st : ConnState, (connRun st evs).reconnectAttempts =
      evs.foldl
        (fun n e =>
          match e with
          | .connect => 0
          | .disconnect => n
          | .connectError => n + 1)
        st.reconnectAttempts := by
  induction evs with
  | nil => intro st; rfl
  | cons e rest ih =>
      intro st
      rcases e <;> simpa [connRun, connStep] using ih _

/-- C10: the `connect` handler resets the attempt counter to zero and
clears the error; over any event trace from startup the counter equals
the number of `connect_error` events since the last successful
`connect`; and the terminal "Unable to connect to server. Please
refresh the page." error can only be present when at least five
consecutive connection failures occurred with no intervening
successful connect. -/
theorem claim_C10 (st : ConnState) (evs : List ConnEvent) :
    (connStep st .connect).reconnectAttempts = 0
    ∧ (connStep st .connect).connectionError = none
    ∧ (connRun initConnState evs).reconnectAttempts =
        failuresSinceConnect evs
    ∧ ((connRun initConnState evs).connectionError =
          some terminalConnError →
        failuresSinceConnect evs ≥ maxReconnectAttempts) := by
  refine ⟨rfl, rfl, ?_, ?_⟩
  · rw [connRun_attempts evs initConnState]
    rfl
  · intro h
    have hinv := connRun_terminalInv initConnState evs
      (by intro hbad; simp [initConnState] at hbad) h
    calc maxReconnectAttempts ≤
          (connRun initConnState evs).reconnectAttempts := hinv
      _ = failuresSinceConnect evs := by
          rw [connRun_attempts evs initConnState]; rfl

/-- C10 witness: five consecutive failures from startup surface the
terminal error, and the trace indeed holds five failures since the
last connect. -/
theorem claim_C10_witness :
    failuresSinceConnect
      [.connectError, .connectError, .connectError, .connectError,
       .connectError] ≥ maxReconnectAttempts :=
  (claim_C10 initConnState
    [.connectError, .connectError, .connectError, .connectError,
     .connectError]).2.2.2 (by decide)

end Eunoia
